import Mathlib

/-!
Verification development for the `cftp` FTP server library.

The definitions below are a shallow embedding of the Rust sources:

* `crates/cftp/src/command/*`   — the command parser (`Command::from_str` and
  each per-verb `FromStr` implementation);
* `crates/cftp/src/code.rs`     — the response codec (`FtpResponse::to_bytes`,
  `Port::p1_p2`, the `IntoFtpResponse` adapter);
* `crates/cftp/src/tls.rs`      — the `MaybeTls` transport envelope;
* `crates/cftp/src/ftp.rs`      — the session driver (`Ftp::handle`,
  `Ftp::passive_conn`, `Ftp::upgrade_tls`, `Ftp::read`).

Strings are modelled as `List Char` (the Rust code operates on UTF-8 strings;
every byte-level operation involved here is character-wise).  Machine integers
are modelled as `Nat` with explicit truncation (`% 256` for `as u8` casts).
Asynchronous I/O is modelled by explicit oracles: each handler method or
stream operation that the driver awaits is a parameter supplying its result,
so one driver step is a pure function of the session state, the oracle and
the command-read outcome.
-/

namespace Cftp

/-! Section: String utilities (Rust `str::trim`, `split_once`, `eq_ignore_ascii_case`) -/

/-- Whitespace recognised by Rust `char::is_whitespace`, restricted to the
ASCII range (space, tab, newline, vertical tab, form feed, carriage return). -/
def isWs (c : Char) : Bool :=
  c = ' ' || c = '\t' || c = '\n' || c = '\x0b' || c = '\x0c' || c = '\r'

/-- Rust `str::trim`: remove leading and trailing whitespace. -/
def trimChars (l : List Char) : List Char :=
  ((l.dropWhile isWs).reverse.dropWhile isWs).reverse

/-- Rust `s.split_once(' ').unwrap_or((s, ""))` from `Command::from_str`:
split on the first space; when there is no space the whole input is the verb
and the parameters are empty. -/
def splitOnce : List Char → List Char × List Char
  | [] => ([], [])
  | c :: rest =>
    if c = ' ' then ([], rest)
    else
      let p := splitOnce rest
      (c :: p.1, p.2)

/-- ASCII lowercasing of one character (Rust `u8::to_ascii_lowercase`). -/
def asciiLower (c : Char) : Char :=
  if 'A' ≤ c ∧ c ≤ 'Z' then Char.ofNat (c.toNat + 32) else c

/-- ASCII uppercasing of one character (Rust `str::to_uppercase` on ASCII). -/
def asciiUpper (c : Char) : Char :=
  if 'a' ≤ c ∧ c ≤ 'z' then Char.ofNat (c.toNat - 32) else c

/-- Rust `str::eq_ignore_ascii_case`. -/
def eqIgnoreAsciiCase (a b : List Char) : Bool :=
  a.map asciiLower == b.map asciiLower

/-- Path normalisation used by the `RETR`, `STOR`, `RNFR` and `RNTO` argument
parsers (`path.replace("\\", "/")` — a single-character replacement, hence a
character map). -/
def normalizePath (l : List Char) : List Char :=
  l.map (fun c => if c = '\\' then '/' else c)

/-! Section: Command data model (`crates/cftp/src/command/`) -/

/-- Rust `AuthType` (command/auth.rs). -/
inductive AuthType
  | Ssl
  | Tls
deriving DecidableEq, Repr

/-- Rust `TransferType` (command/type.rs). -/
inductive TransferType
  | Ascii
  | Binary
deriving DecidableEq, Repr

/-- Rust `Command` (command/mod.rs): one case per recognised verb, carrying
the parsed payload.  The Rust `Type` variant is called `TypeCmd` because
`Type` is a Lean keyword. -/
inductive Command
  | Auth (authType : AuthType)
  | User (username : List Char)
  | Pass (password : List Char)
  | Cwd (path : List Char)
  | Pwd
  | TypeCmd (changeTo : TransferType)
  | Pasv
  | List
  | Retr (file : List Char)
  | Syst
  | Stor (file : List Char)
  | Feat
  | Opts (options : List Char)
  | Utf8
  | Pbsz
  | Rnfr (path : List Char)
  | Rnto (toPath : List Char)
deriving DecidableEq, Repr

/-- Rust `AuthType::from_str` (command/auth.rs): trim, then case-insensitive
match against `SSL` / `TLS`. -/
def AuthType.fromStr (s : List Char) : Except (List Char) AuthType :=
  let s := trimChars s
  if eqIgnoreAsciiCase s "SSL".data then .ok .Ssl
  else if eqIgnoreAsciiCase s "TLS".data then .ok .Tls
  else .error "invalid authentication type".data

/-- Rust `TransferType::from_str` (command/type.rs): trim, uppercase, match. -/
def TransferType.fromStr (s : List Char) : Except (List Char) TransferType :=
  let u := (trimChars s).map asciiUpper
  if u = "A".data ∨ u = "ASCII".data then .ok .Ascii
  else if u = "I".data ∨ u = "BINARY".data then .ok .Binary
  else .error "invalid transfer type".data

/-- Rust `Command::from_str` (command/impl_command.rs, expanded with the
verb table of command/mod.rs, in source order): split on the first space,
trim verb and parameters, compare the verb case-insensitively against each
keyword, and run the argument parser of that verb on the parameters.  A failing
argument parser yields `failed to parse <verb> command: <reason>`; an
unknown verb yields `unknown command: <verb>`.  (Named at namespace level
because the `Command.List` constructor would otherwise shadow `List` in the
signature.) -/
def commandFromStr (s : List Char) : Except (List Char) Command :=
  let p := splitOnce s
  let command := trimChars p.1
  let params := trimChars p.2
  if eqIgnoreAsciiCase command "AUTH".data then
    match AuthType.fromStr params with
    | .ok t => .ok (.Auth t)
    | .error e => .error ("failed to parse AUTH command: ".data ++ e)
  else if eqIgnoreAsciiCase command "USER".data then
    .ok (.User (trimChars params))
  else if eqIgnoreAsciiCase command "PASS".data then
    .ok (.Pass (trimChars params))
  else if eqIgnoreAsciiCase command "CWD".data then
    .ok (.Cwd (trimChars params))
  else if eqIgnoreAsciiCase command "PWD".data then
    .ok .Pwd
  else if eqIgnoreAsciiCase command "TYPE".data then
    match TransferType.fromStr params with
    | .ok t => .ok (.TypeCmd t)
    | .error e => .error ("failed to parse TYPE command: ".data ++ e)
  else if eqIgnoreAsciiCase command "PASV".data then
    .ok .Pasv
  else if eqIgnoreAsciiCase command "LIST".data then
    .ok .List
  else if eqIgnoreAsciiCase command "RETR".data then
    .ok (.Retr (normalizePath params))
  else if eqIgnoreAsciiCase command "SYST".data then
    .ok .Syst
  else if eqIgnoreAsciiCase command "STOR".data then
    .ok (.Stor (normalizePath params))
  else if eqIgnoreAsciiCase command "FEAT".data then
    .ok .Feat
  else if eqIgnoreAsciiCase command "OPTS".data then
    .ok (.Opts (trimChars params))
  else if eqIgnoreAsciiCase command "UTF8".data then
    .ok .Utf8
  else if eqIgnoreAsciiCase command "PBSZ".data then
    .ok .Pbsz
  else if eqIgnoreAsciiCase command "RNFR".data then
    .ok (.Rnfr (normalizePath params))
  else if eqIgnoreAsciiCase command "RNTO".data then
    .ok (.Rnto (normalizePath params))
  else
    .error ("unknown command: ".data ++ command)

/-! Section: Response codec (`crates/cftp/src/code.rs`) -/

/-- Rust `SimpleReturnCode` (code.rs). -/
inductive SimpleReturnCode
  | RestartMarker
  | ServiceReady
  | DataConnectionAlreadyOpen
  | OpeningDataConnection
  | Ok
  | Superfluous
  | SystemStatus
  | DirectoryStatus
  | FileStatus
  | HelpMessage
  | ClosingControlConnection
  | ClosingDataConnectionNoTransfer
  | ClosingDataConnectionSuccessful
  | UserLoggedIn
  | AuthenticationSuccessful
  | NeedPassword
  | NeedAccount
  | FileActionPending
  | ServiceNotAvailable
  | CantOpenDataConnection
  | TransferAborted
  | FileActionNotTaken
  | LocalError
  | InsufficientStorage
  | SyntaxError
  | CommandNotImplemented
  | BadSequence
  | ParameterNotImplemented
  | NotLoggedIn
  | NeetAccountForStoringFiles
  | FileUnavailable
  | ExceededStorageAllocation
  | FilenameNotAllowed
deriving DecidableEq, Repr

/-- The numeric discriminants of `SimpleReturnCode` (`#[repr(u16)]`). -/
def SimpleReturnCode.code : SimpleReturnCode → Nat
  | .RestartMarker => 110
  | .ServiceReady => 120
  | .DataConnectionAlreadyOpen => 125
  | .OpeningDataConnection => 150
  | .Ok => 200
  | .Superfluous => 202
  | .SystemStatus => 211
  | .DirectoryStatus => 212
  | .FileStatus => 213
  | .HelpMessage => 214
  | .ClosingControlConnection => 221
  | .ClosingDataConnectionNoTransfer => 225
  | .ClosingDataConnectionSuccessful => 226
  | .UserLoggedIn => 230
  | .AuthenticationSuccessful => 234
  | .NeedPassword => 331
  | .NeedAccount => 332
  | .FileActionPending => 350
  | .ServiceNotAvailable => 421
  | .CantOpenDataConnection => 425
  | .TransferAborted => 426
  | .FileActionNotTaken => 450
  | .LocalError => 451
  | .InsufficientStorage => 452
  | .SyntaxError => 501
  | .CommandNotImplemented => 502
  | .BadSequence => 503
  | .ParameterNotImplemented => 504
  | .NotLoggedIn => 530
  | .NeetAccountForStoringFiles => 532
  | .FileUnavailable => 550
  | .ExceededStorageAllocation => 552
  | .FilenameNotAllowed => 553

/-- Rust `Ipv4Addr` octets (all values are `u8`, i.e. below 256 by
construction; the codec renders whatever is stored). -/
structure Ipv4Addr where
  a : Nat
  b : Nat
  c : Nat
  d : Nat
deriving DecidableEq, Repr

/-- Rust `Port(pub u16)` (code.rs).  The payload of a `u16` is below 65536
by construction; the field is a plain `Nat` and theorems that depend on the
bound take it as a hypothesis. -/
structure Port where
  val : Nat
deriving DecidableEq, Repr

/-- Rust `Port::p1_p2` (code.rs): `p1 = (port >> 8) as u8`,
`p2 = (port & 0xFF) as u8`.  The `as u8` casts truncate modulo 256. -/
def Port.p1_p2 (p : Port) : Nat × Nat :=
  ((p.val >>> 8) % 256, (p.val &&& 0xFF) % 256)

/-- Rust `FtpResponse` (code.rs).  `Features` holds a `HashSet<String>`;
here it holds the list of features in the (unspecified) order the set
iterates them. -/
inductive FtpResponse
  | Simple (code : SimpleReturnCode) (msg : Option (List Char))
  | Features (features : List (List Char))
  | NameSystemType (msg : List Char)
  | ReadyForNewUser (msg : List Char)
  | EnteringPassiveMode (ip : Ipv4Addr) (port : Port)
  | FileActionOk (path : Option (List Char))
  | DirectoryCreated (path : List Char)
deriving DecidableEq, Repr

/-- Rust `FtpResponse::code`: the `Simple` variant reports its inner code,
the other variants their `#[repr(u16)]` discriminant. -/
def FtpResponse.code : FtpResponse → Nat
  | .Simple c _ => c.code
  | .Features _ => 211
  | .NameSystemType _ => 215
  | .ReadyForNewUser _ => 220
  | .EnteringPassiveMode _ _ => 227
  | .FileActionOk _ => 250
  | .DirectoryCreated _ => 257

/-- Rust `msg.replace("\"", "\\\"")`: escape every double quote. -/
def escapeQuotes (l : List Char) : List Char :=
  l.flatMap (fun c => if c = '"' then ['\\', '"'] else [c])

/-- Decimal rendering of a `Nat`, as Rust `Display` for unsigned integers. -/
def natChars (n : Nat) : List Char :=
  Nat.toDigits 10 n

/-- Rust `FtpResponse::to_bytes` (code.rs): `"<code> "`, then the
variant-specific body, then CRLF. -/
def FtpResponse.to_bytes (r : FtpResponse) : List Char :=
  let code := r.code
  let body : List Char :=
    match r with
    | .ReadyForNewUser msg | .NameSystemType msg | .Simple _ (some msg) =>
      escapeQuotes msg
    | .EnteringPassiveMode ip port =>
      let pp := port.p1_p2
      '(' :: (natChars ip.a ++ ',' :: natChars ip.b ++ ',' :: natChars ip.c
        ++ ',' :: natChars ip.d ++ ',' :: natChars pp.1
        ++ ',' :: natChars pp.2 ++ [')'])
    | .FileActionOk (some path) | .DirectoryCreated path =>
      '"' :: (escapeQuotes path ++ ['"'])
    | .Features f =>
      "Features:\r\n".data
        ++ f.flatMap (fun feature => ' ' :: (feature ++ ['\r', '\n']))
        ++ natChars code ++ " End".data
    | .FileActionOk none | .Simple _ none => []
  natChars code ++ ' ' :: (body ++ ['\r', '\n'])

/-! Section: Transport envelope (`crates/cftp/src/tls.rs`, `Ftp::upgrade_tls`) -/

/-- Rust `MaybeTls<Stream>` (tls.rs).  `σ` is the plaintext stream type,
`τ` the TLS-wrapped stream type (`TlsStream<Stream>`). -/
inductive MaybeTls (σ τ : Type)
  | Plain (s : σ)
  | Tls (t : τ)
  | UpgradeBroken

/-- Rust `AsyncRead::poll_read` for `MaybeTls` (tls.rs): `Plain` and `Tls`
delegate to the inner stream (whose behaviour is the delegate function);
`UpgradeBroken` immediately returns the `"TLS upgrade failed"` I/O error. -/
def MaybeTls.pollRead (m : MaybeTls σ τ) (fp : σ → ρ) (ft : τ → ρ) :
    Except (List Char) ρ :=
  match m with
  | .Plain s => .ok (fp s)
  | .Tls t => .ok (ft t)
  | .UpgradeBroken => .error "TLS upgrade failed".data

/-- Rust `AsyncWrite::poll_write` for `MaybeTls` (tls.rs). -/
def MaybeTls.pollWrite (m : MaybeTls σ τ) (fp : σ → ρ) (ft : τ → ρ) :
    Except (List Char) ρ :=
  match m with
  | .Plain s => .ok (fp s)
  | .Tls t => .ok (ft t)
  | .UpgradeBroken => .error "TLS upgrade failed".data

/-- Rust `AsyncWrite::poll_flush` for `MaybeTls` (tls.rs). -/
def MaybeTls.pollFlush (m : MaybeTls σ τ) (fp : σ → ρ) (ft : τ → ρ) :
    Except (List Char) ρ :=
  match m with
  | .Plain s => .ok (fp s)
  | .Tls t => .ok (ft t)
  | .UpgradeBroken => .error "TLS upgrade failed".data

/-- Rust `AsyncWrite::poll_close` for `MaybeTls` (tls.rs). -/
def MaybeTls.pollClose (m : MaybeTls σ τ) (fp : σ → ρ) (ft : τ → ρ) :
    Except (List Char) ρ :=
  match m with
  | .Plain s => .ok (fp s)
  | .Tls t => .ok (ft t)
  | .UpgradeBroken => .error "TLS upgrade failed".data

/-- Rust `TlsUpgradeError` (ftp.rs). -/
inductive TlsUpgradeError
  | Unconfigured
  | PreviousFailure
  | Io (e : List Char)
deriving DecidableEq, Repr

/-- Rust `Ftp::upgrade_tls` (ftp.rs lines 513-542).  The acceptor is
`Option` of a handshake function (`TlsAcceptor::accept`).  The result is
the sequence of states assigned to `self.reader`, in order, together with
the return value of the function:

* `Plain s`: `self.reader` is first swapped to `UpgradeBroken`
  (`std::mem::replace`), then the handshake runs; on success `self.reader`
  is assigned `Tls`, on failure (or a missing acceptor) no further
  assignment happens, so the reader stays `UpgradeBroken` and the error
  surfaces (`?` on `acceptor.accept`, or `Unconfigured`);
* `Tls`: warn and return `Ok` with no assignment;
* `UpgradeBroken`: return `PreviousFailure` with no assignment. -/
def MaybeTls.upgradeTls (m : MaybeTls σ τ)
    (acceptor : Option (σ → Except (List Char) τ)) :
    List (MaybeTls σ τ) × Except TlsUpgradeError Unit :=
  match m with
  | .Plain s =>
    match acceptor with
    | some accept =>
      match accept s with
      | .ok t => ([.UpgradeBroken, .Tls t], .ok ())
      | .error e => ([.UpgradeBroken], .error (.Io e))
    | none => ([.UpgradeBroken], .error .Unconfigured)
  | .Tls _ => ([], .ok ())
  | .UpgradeBroken => ([], .error .PreviousFailure)

/-- The transport state when `upgrade_tls` returns: the last assignment to
`self.reader`, or the original state when nothing was assigned. -/
def MaybeTls.upgradeFinal (m : MaybeTls σ τ)
    (acceptor : Option (σ → Except (List Char) τ)) : MaybeTls σ τ :=
  (m.upgradeTls acceptor).1.getLastD m

/-! Section: Line framing (`Ftp::read`, ftp.rs lines 544-574) -/

/-- Whether a buffer ends in CRLF — the Rust check
`len >= 2 && buf[len - 2..] == *b"\r\n"`. -/
def endsWithCRLF (l : List Char) : Bool :=
  match l.reverse with
  | '\n' :: '\r' :: _ => true
  | _ => false

/-- The byte-at-a-time read loop of `Ftp::read`: push each byte onto `buf`;
when `buf` ends in CRLF, strip the CRLF and stop; at end of stream stop
with whatever has been buffered.  Returns the line and the unconsumed rest
of the stream. -/
def readLineAux : List Char → List Char → List Char × List Char
  | buf, [] => (buf, [])
  | buf, b :: rest =>
    let buf2 := buf ++ [b]
    if endsWithCRLF buf2 then (buf2.dropLast.dropLast, rest)
    else readLineAux buf2 rest

/-- Rust `CommandRead` (ftp.rs). -/
inductive CommandRead
  | command (c : Command)
  | disconnect
deriving DecidableEq, Repr

/-- The result of `Ftp::read`: `Ok(CommandRead)` or a parse error.  (The
transport-level I/O error case arises from the underlying stream, which is
modelled as a pure byte list here; it is represented separately as a
`ReadEvent` in the session driver.) -/
inductive ReadResult
  | ok (c : CommandRead)
  | parseErr (e : List Char)
deriving DecidableEq, Repr

/-- Rust `Ftp::read` on a pure input stream: read one line (see
`readLineAux`), treat an all-whitespace line as a disconnect, otherwise
parse it with `Command::from_str`. -/
def ftpRead (input : List Char) : ReadResult × List Char :=
  let r := readLineAux [] input
  if (trimChars r.1).isEmpty then (.ok .disconnect, r.2)
  else
    match commandFromStr r.1 with
    | .ok c => (.ok (.command c), r.2)
    | .error e => (.parseErr e, r.2)

/-! Section: Session driver (`Ftp::handle`, ftp.rs)

The driver is an async loop; each iteration reads one command and handles
it.  One iteration is modelled as a pure step function of

* the mutable session state the loop carries (`io_factory`, `to_rename`);
* an oracle giving the results of the handler methods and data-channel
  operations awaited during the iteration (handler methods that take
  arguments are functions of those arguments, so a theorem can state what
  they were called with);
* the outcome of `self.read()` for the iteration.

Control-channel writes are modelled as infallible (a failing control write
aborts the session in Rust; no claim is about that path), so the step
reports the list of `FtpResponse`s written to the control channel. -/

/-- Handler error type: the blanket `IntoFtpResponse` impl (code.rs lines
138-149) maps an error to `Simple(code, Some(display))` using its `Display`
string and its `Into<SimpleReturnCode>` code, so an error is modelled as
that pair. -/
structure HandlerErr where
  code : SimpleReturnCode
  msg : List Char
deriving DecidableEq, Repr

/-- Rust `IntoFtpResponse::into_ftp_response` (blanket impl, code.rs). -/
def HandlerErr.into_ftp_response (e : HandlerErr) : FtpResponse :=
  .Simple e.code (some e.msg)

/-- The IP of a socket address (handler.rs `PassiveConn::to_reply` matches
on `self.addr.ip()`). -/
inductive IpAddr
  | v4 (ip : Ipv4Addr)
  | v6
deriving DecidableEq, Repr

/-- Rust `PassiveConn` (handler.rs), as far as the driver observes it: its
bound socket address.  (The inner `io_factory` is represented in the
session state by whether one is installed, plus the `createIoOk` oracle.) -/
structure PassiveConnM where
  addrIp : IpAddr
  addrPort : Port
deriving DecidableEq, Repr

/-- Rust `PassiveConn::to_reply` (handler.rs lines 89-100): `None` for a
non-IPv4 address, otherwise the 227 response. -/
def PassiveConnM.toReply (p : PassiveConnM) : Option FtpResponse :=
  match p.addrIp with
  | .v4 ip => some (.EnteringPassiveMode ip p.addrPort)
  | .v6 => none

/-- The state the authenticated command loop mutates: whether
`self.io_factory` is `Some`, and the `to_rename` local. -/
structure CState where
  ioFactory : Bool
  toRename : Option (List Char)
deriving DecidableEq, Repr

/-- Oracle for the suspension points of one loop iteration. -/
structure StepOracle where
  /-- result of `handler.cwd()` -/
  cwdRes : Option (List Char)
  /-- result of `handler.set_cwd(path)` -/
  setCwdRes : List Char → Bool
  /-- result of `handler.passive_conn()` -/
  pasvRes : Except HandlerErr PassiveConnM
  /-- whether `io_factory.create_io()` returns `Some` stream -/
  createIoOk : Bool
  /-- result of `handler.ls()` — the `Display`-formatted lines -/
  lsRes : Except HandlerErr (List (List Char))
  /-- whether the data-channel `write_all` of the i-th listing entry succeeds -/
  dataWriteOk : Nat → Bool
  /-- result of `handler.read(path, data_stream)` -/
  readRes : List Char → Except HandlerErr Unit
  /-- result of `handler.write(path, data_stream)` -/
  writeRes : List Char → Except HandlerErr Unit
  /-- result of `handler.rename(from, to)` -/
  renameRes : List Char → List Char → Except HandlerErr Unit
  /-- result of `handler.os_info()` -/
  osInfo : List Char
  /-- the merged feature set in its (unspecified) iteration order -/
  featIter : List (List Char)

/-- The outcome of `self.read()` observed by a loop iteration. -/
inductive ReadEvent
  | command (c : Command)
  | disconnect
  | parseError (e : List Char)
  | ioError
deriving DecidableEq, Repr

/-- One iteration of the authenticated command loop: either the loop
continues with a new state (having written `responses` on the control
channel; `dataAccepted` records whether a data stream was accepted from the
passive factory), or the loop exits (`Ftp::handle` then returns `Ok`). -/
inductive StepResult
  | next (st : CState) (responses : List FtpResponse) (dataAccepted : Bool)
  | halt (st : CState) (responses : List FtpResponse)
deriving DecidableEq, Repr

/-- State after the step. -/
def StepResult.outState : StepResult → CState
  | .next st _ _ => st
  | .halt st _ => st

/-- Control-channel responses written during the step. -/
def StepResult.outResponses : StepResult → List FtpResponse
  | .next _ rs _ => rs
  | .halt _ rs => rs

/-- Whether a data stream was accepted during the step. -/
def StepResult.accepted : StepResult → Bool
  | .next _ _ d => d
  | .halt _ _ => false

/-- Rust `Ftp::passive_conn` (ftp.rs lines 506-511): write the 150
response first, then `self.io_factory.as_mut()?.create_io().await` — the
stream is obtained only when a factory is installed and `create_io`
succeeds, and the factory itself is left in place (`as_mut`, not `take`).
Returns (responses written, whether a stream was obtained). -/
def passiveConnDrv (st : CState) (createIoOk : Bool) :
    List FtpResponse × Bool :=
  ([.Simple .OpeningDataConnection none], st.ioFactory && createIoOk)

/-- The `for file in ls` loop of the LIST arm (ftp.rs lines 348-360): each
entry is written to the data stream; on a failed write the loop writes a
225 on the control channel and `continue`s — to the next entry of the
`for` loop.  Returns the control responses written by the loop. -/
def listLoop (ok : Nat → Bool) : Nat → List (List Char) → List FtpResponse
  | _, [] => []
  | i, _ :: rest =>
    (if ok i then [] else [.Simple .ClosingDataConnectionNoTransfer none])
      ++ listLoop ok (i + 1) rest

/-- One iteration of the authenticated command loop of `Ftp::handle`
(ftp.rs lines 242-501), arm by arm in source order. -/
def phaseCStep (st : CState) (o : StepOracle) (ev : ReadEvent) : StepResult :=
  match ev with
  | .disconnect => .halt st []
  | .ioError => .halt st []
  | .parseError e => .next st [.Simple .CommandNotImplemented (some e)] false
  | .command c =>
    match c with
    | .Pwd =>
      match o.cwdRes with
      | some path => .next st [.DirectoryCreated (normalizePath path)] false
      | none => .next st [.Simple .FileUnavailable none] false
    | .Cwd path =>
      if o.setCwdRes path then .next st [.Simple .Ok none] false
      else .next st [.Simple .FileUnavailable none] false
    | .TypeCmd _ => .next st [.Simple .Ok none] false
    | .Pasv =>
      match o.pasvRes with
      | .error _ => .next st [.Simple .CommandNotImplemented none] false
      | .ok conn =>
        match conn.toReply with
        | some reply => .next { st with ioFactory := true } [reply] false
        | none => .next st [.Simple .CommandNotImplemented none] false
    | .List =>
      let pc := passiveConnDrv st o.createIoOk
      if pc.2 then
        match o.lsRes with
        | .error _ =>
          .next st (pc.1 ++ [.Simple .ClosingDataConnectionNoTransfer none]) true
        | .ok files =>
          .next st
            (pc.1 ++ listLoop o.dataWriteOk 0 files
              ++ [.Simple .ClosingDataConnectionSuccessful none]) true
      else
        .next st (pc.1 ++ [.Simple .CommandNotImplemented none]) false
    | .Syst => .next st [.NameSystemType o.osInfo] false
    | .Retr file =>
      let pc := passiveConnDrv st o.createIoOk
      if pc.2 then
        match o.readRes file with
        | .ok _ =>
          .next st (pc.1 ++ [.Simple .ClosingDataConnectionSuccessful none]) true
        | .error _ =>
          .next st (pc.1 ++ [.Simple .FileUnavailable none]) true
      else
        .next st (pc.1 ++ [.Simple .CommandNotImplemented none]) false
    | .Stor file =>
      let pc := passiveConnDrv st o.createIoOk
      if pc.2 then
        match o.writeRes file with
        | .ok _ =>
          .next st (pc.1 ++ [.Simple .ClosingDataConnectionSuccessful none]) true
        | .error _ =>
          .next st (pc.1 ++ [.Simple .FileUnavailable none]) true
      else
        .next st (pc.1 ++ [.Simple .CommandNotImplemented none]) false
    | .Feat => .next st [.Features o.featIter] false
    | .Opts _ => .next st [.Simple .Ok none] false
    | .Utf8 => .next st [.Simple .Ok none] false
    | .Auth _ => .next st [.Simple .BadSequence none] false
    | .User _ => .next st [.Simple .BadSequence none] false
    | .Pass _ => .next st [.Simple .BadSequence none] false
    | .Rnfr path =>
      .next { st with toRename := some path }
        [.Simple .FileActionPending none] false
    | .Rnto toPath =>
      match st.toRename with
      | none => .next { st with toRename := none } [.Simple .BadSequence none] false
      | some fromPath =>
        match o.renameRes fromPath toPath with
        | .ok _ => .next { st with toRename := none } [.Simple .Ok none] false
        | .error e => .next { st with toRename := none } [e.into_ftp_response] false
    | .Pbsz => .next st [.Simple .Ok none] false

/-! Section: Pre-authentication phase and whole-session machine -/

/-- The transport state of the control stream, abstracted from the stream
payloads of `MaybeTls` (the session machine only observes the tag). -/
inductive Transport
  | Plain
  | Tls
  | UpgradeBroken
deriving DecidableEq, Repr

/-- The per-session security configuration: whether a TLS acceptor is
configured (`self.acceptor.is_some()`) and the `allow_plaintext` flag.
`Ftp::new_from_builder` only produces `acceptor = Some` configurations with
an explicit `allow_plaintext`, and `new_insecure` sets
`allow_plaintext = true`. -/
structure Config where
  tlsConfigured : Bool
  allowPlaintext : Bool
deriving DecidableEq, Repr

/-- The outcome of one iteration of the pre-authentication loop (`Ftp::handle`
lines 131-213): keep looping (with a possibly upgraded transport), exit the
loop with a username (`break user`), or leave `handle` entirely —
`terminatedOk` for `return Ok(())`, `terminatedErr` for an error propagated
with `?`.  `responses` are the control responses written during the
iteration. -/
inductive PhaseAOut
  | looped (t : Transport) (responses : List FtpResponse)
  | gotUser (t : Transport) (username : List Char) (responses : List FtpResponse)
  | terminatedOk (responses : List FtpResponse)
  | terminatedErr (responses : List FtpResponse)
deriving DecidableEq, Repr

/-- One iteration of the pre-authentication loop (ftp.rs lines 131-213),
arm by arm:

* a read error — parse failure included — propagates with `?`
  (`self.read().await?`), terminating the session without a response;
* `AUTH TLS` with an acceptor configured: write 234, then `upgrade_tls`
  (`handshakeOk` is the handshake oracle; on failure the error propagates);
* any other `AUTH`: 502 `unsupported AUTH type`, keep looping;
* `USER` while the transport is not `Tls` and `allow_plaintext` is false:
  530, keep looping;
* `USER` otherwise: `break` with the username;
* `OPTS`: 200, keep looping;
* any other command: 503, `return Ok(())`. -/
def phaseAStep (cfg : Config) (t : Transport) (handshakeOk : Bool)
    (ev : ReadEvent) : PhaseAOut :=
  match ev with
  | .disconnect => .terminatedOk []
  | .parseError _ => .terminatedErr []
  | .ioError => .terminatedErr []
  | .command c =>
    match c with
    | .Auth a =>
      if a = .Tls ∧ cfg.tlsConfigured then
        let r234 : List FtpResponse :=
          [.Simple .AuthenticationSuccessful (some "Starting TLS negotiation.".data)]
        match t with
        | .Plain => if handshakeOk then .looped .Tls r234 else .terminatedErr r234
        | .Tls => .looped .Tls r234
        | .UpgradeBroken => .terminatedErr r234
      else
        .looped t
          [.Simple .CommandNotImplemented (some "unsupported AUTH type".data)]
    | .User u =>
      if t ≠ .Tls ∧ cfg.allowPlaintext = false then
        .looped t
          [.Simple .NotLoggedIn
            (some "Please use AUTH TLS before sending USER command.".data)]
      else
        .gotUser t u []
    | .Opts _ => .looped t [.Simple .Ok none]
    | _ => .terminatedOk [.Simple .BadSequence none]

/-- The phase of a session: pre-authentication loop, waiting for `PASS`
after a `USER` was accepted, the authenticated command loop, or returned
from `handle`. -/
inductive Phase
  | preAuth
  | awaitingPass (username : List Char)
  | authenticated (c : CState)
  | done
deriving DecidableEq, Repr

/-- The whole-session state observed between suspension points. -/
structure SessionSt where
  transport : Transport
  phase : Phase
deriving DecidableEq, Repr

/-- One transition of a session, with the read outcomes and handler results
chosen adversarially (they are premises of each constructor).  It stitches
together `phaseAStep`, the password exchange (ftp.rs lines 215-240) and
`phaseCStep`:

* in `preAuth`, a `looped` outcome keeps the phase, `gotUser` moves to
  `awaitingPass`, and both terminations move to `done`;
* in `awaitingPass`, a `PASS` whose `authenticate` result is `true` enters
  the authenticated loop with `io_factory = None` and `to_rename = None`;
  everything else (authentication failure or error, a non-`PASS` command,
  disconnect, read error) makes `handle` return, i.e. `done`;
* in the authenticated loop, `phaseCStep` either continues or exits.

The transport is only ever modified by `phaseAStep` (the `AUTH TLS`
upgrade); phases B and C never touch it. -/
inductive SessionStep (cfg : Config) : SessionSt → SessionSt → Prop
  | preLoop (t : Transport) (h : Bool) (ev : ReadEvent) (t2 : Transport)
      (rs : List FtpResponse) :
      phaseAStep cfg t h ev = .looped t2 rs →
      SessionStep cfg ⟨t, .preAuth⟩ ⟨t2, .preAuth⟩
  | preUser (t : Transport) (h : Bool) (ev : ReadEvent) (t2 : Transport)
      (u : List Char) (rs : List FtpResponse) :
      phaseAStep cfg t h ev = .gotUser t2 u rs →
      SessionStep cfg ⟨t, .preAuth⟩ ⟨t2, .awaitingPass u⟩
  | preTermOk (t : Transport) (h : Bool) (ev : ReadEvent)
      (rs : List FtpResponse) :
      phaseAStep cfg t h ev = .terminatedOk rs →
      SessionStep cfg ⟨t, .preAuth⟩ ⟨t, .done⟩
  | preTermErr (t : Transport) (h : Bool) (ev : ReadEvent)
      (rs : List FtpResponse) :
      phaseAStep cfg t h ev = .terminatedErr rs →
      SessionStep cfg ⟨t, .preAuth⟩ ⟨t, .done⟩
  | passAccept (t : Transport) (u p : List Char) :
      SessionStep cfg ⟨t, .awaitingPass u⟩
        ⟨t, .authenticated ⟨false, none⟩⟩
  | passEnd (t : Transport) (u : List Char) :
      SessionStep cfg ⟨t, .awaitingPass u⟩ ⟨t, .done⟩
  | cNext (t : Transport) (c c2 : CState) (o : StepOracle) (ev : ReadEvent)
      (rs : List FtpResponse) (d : Bool) :
      phaseCStep c o ev = .next c2 rs d →
      SessionStep cfg ⟨t, .authenticated c⟩ ⟨t, .authenticated c2⟩
  | cHalt (t : Transport) (c c2 : CState) (o : StepOracle) (ev : ReadEvent)
      (rs : List FtpResponse) :
      phaseCStep c o ev = .halt c2 rs →
      SessionStep cfg ⟨t, .authenticated c⟩ ⟨t, .done⟩

/-- Reachability of a session state from an initial state by session
transitions. -/
def SessionReachable (cfg : Config) (s0 s : SessionSt) : Prop :=
  Relation.ReflTransGen (SessionStep cfg) s0 s

/-! Section: Small classifiers and concrete instances used by the theorems -/

/-- The data-transfer commands: `LIST`, `RETR`, `STOR`. -/
def Command.isDataCmd : Command → Bool
  | .List => true
  | .Retr _ => true
  | .Stor _ => true
  | _ => false

/-- The commands given a dedicated arm in the pre-authentication loop
(`AUTH`, `USER`, `OPTS`); every other command falls into its catch-all. -/
def Command.isAuthUserOpts : Command → Bool
  | .Auth _ => true
  | .User _ => true
  | .Opts _ => true
  | _ => false

/-- Whether a read event is an `RNFR` or `RNTO` command (the only commands
whose arm mentions `to_rename`). -/
def ReadEvent.touchesRename : ReadEvent → Bool
  | .command (.Rnfr _) => true
  | .command (.Rnto _) => true
  | _ => false

/-- Whether a character list contains the two-character sequence CR LF. -/
def hasCRLF : List Char → Bool
  | [] => false
  | [_] => false
  | a :: b :: rest => (a = '\r' && b = '\n') || hasCRLF (b :: rest)

/-- A concrete oracle in which every handler call succeeds with a trivial
result; used to evaluate the driver at concrete inputs. -/
def o0 : StepOracle where
  cwdRes := none
  setCwdRes := fun _ => true
  pasvRes := .error ⟨.LocalError, []⟩
  createIoOk := true
  lsRes := .ok []
  dataWriteOk := fun _ => true
  readRes := fun _ => .ok ()
  writeRes := fun _ => .ok ()
  renameRes := fun _ _ => .ok ()
  osInfo := []
  featIter := []

/-- A concrete oracle whose listing has two entries and whose data-channel
writes all fail. -/
def oFail : StepOracle :=
  { o0 with lsRes := .ok ["x".data, "y".data], dataWriteOk := fun _ => false }

/-! Section: Theorems -/

/-- C9: the path normalisation applied when parsing `RETR`, `STOR`, `RNFR`
and `RNTO` arguments (replacing every backslash with a forward slash, see
`normalizePath`, called by `commandFromStr` for exactly those verbs) is
idempotent, and its output never contains a backslash. -/
theorem normalize_idempotent (p : List Char) :
    normalizePath (normalizePath p) = normalizePath p ∧
      '\\' ∉ normalizePath p := by
  constructor
  · simp only [normalizePath, List.map_map]
    apply List.map_congr_left
    intro c _
    by_cases hc : c = '\\' <;> simp [hc, Function.comp]
  · simp only [normalizePath, List.mem_map, not_exists]
    intro c hc2
    by_cases hc : c = '\\'
    · have heq := hc2.2
      rw [if_pos hc] at heq
      exact absurd heq (by decide)
    · have heq := hc2.2
      rw [if_neg hc] at heq
      exact hc heq

/-- Helper: `p >>> 8` is `p / 256`, and it is below 256 when `p < 65536`. -/
theorem shiftRight8_lt (p : Nat) (h : p < 65536) : p >>> 8 < 256 := by
  rw [Nat.shiftRight_eq_div_pow]
  omega

/-- C8: `encode(EnteringPassiveMode(ip, port))` is exactly
`"227 (a,b,c,d,p1,p2)\r\n"` with `a,b,c,d` the octets of `ip`,
`p1 = port >> 8` and `p2 = port & 0xFF`. -/
theorem encode_entering_passive_mode (ip : Ipv4Addr) (port : Port)
    (h : port.val < 65536) :
    FtpResponse.to_bytes (.EnteringPassiveMode ip port) =
      "227 (".data ++ natChars ip.a ++ ",".data ++ natChars ip.b ++ ",".data
        ++ natChars ip.c ++ ",".data ++ natChars ip.d ++ ",".data
        ++ natChars (port.val >>> 8) ++ ",".data
        ++ natChars (port.val &&& 0xFF) ++ ")\r\n".data := by
  have h1 : (port.val >>> 8) % 256 = port.val >>> 8 :=
    Nat.mod_eq_of_lt (shiftRight8_lt port.val h)
  have h2 : (port.val &&& 0xFF) % 256 = port.val &&& 0xFF := by
    apply Nat.mod_eq_of_lt
    have : port.val &&& 0xFF ≤ 0xFF := Nat.and_le_right
    omega
  simp only [FtpResponse.to_bytes, FtpResponse.code, Port.p1_p2, h1, h2]
  simp [natChars, show Nat.toDigits 10 227 = ['2', '2', '7'] from by decide]

/-- Witness for C8 at ports 65535 and 0. -/
theorem encode_entering_passive_mode_witness :
    ((Port.mk 65535).val < 65536 ∧
      FtpResponse.to_bytes (.EnteringPassiveMode ⟨127, 0, 0, 1⟩ ⟨65535⟩) =
        "227 (".data ++ natChars 127 ++ ",".data ++ natChars 0 ++ ",".data
          ++ natChars 0 ++ ",".data ++ natChars 1 ++ ",".data
          ++ natChars ((65535 : Nat) >>> 8) ++ ",".data
          ++ natChars ((65535 : Nat) &&& 0xFF) ++ ")\r\n".data) ∧
    ((Port.mk 0).val < 65536 ∧
      FtpResponse.to_bytes (.EnteringPassiveMode ⟨10, 0, 0, 2⟩ ⟨0⟩) =
        "227 (".data ++ natChars 10 ++ ",".data ++ natChars 0 ++ ",".data
          ++ natChars 0 ++ ",".data ++ natChars 2 ++ ",".data
          ++ natChars ((0 : Nat) >>> 8) ++ ",".data
          ++ natChars ((0 : Nat) &&& 0xFF) ++ ")\r\n".data) :=
  ⟨⟨by decide, encode_entering_passive_mode ⟨127, 0, 0, 1⟩ ⟨65535⟩ (by decide)⟩,
   ⟨by decide, encode_entering_passive_mode ⟨10, 0, 0, 2⟩ ⟨0⟩ (by decide)⟩⟩

/-- C6: `UpgradeBroken` is terminal for I/O — every read, write, flush and
close on it returns the `"TLS upgrade failed"` error immediately — and a
further upgrade attempt fails with `PreviousFailure`; an upgrade from
`Plain` first swaps the state to `UpgradeBroken` (the head of the
assignment trace), ends in `Tls` when the handshake succeeds, and stays
`UpgradeBroken` when it fails. -/
theorem upgrade_broken_terminal {σ τ ρ : Type} (fp : σ → ρ) (ft : τ → ρ)
    (acceptor : Option (σ → Except (List Char) τ)) (s : σ) :
    ((MaybeTls.UpgradeBroken : MaybeTls σ τ).pollRead fp ft
        = .error "TLS upgrade failed".data) ∧
    ((MaybeTls.UpgradeBroken : MaybeTls σ τ).pollWrite fp ft
        = .error "TLS upgrade failed".data) ∧
    ((MaybeTls.UpgradeBroken : MaybeTls σ τ).pollFlush fp ft
        = .error "TLS upgrade failed".data) ∧
    ((MaybeTls.UpgradeBroken : MaybeTls σ τ).pollClose fp ft
        = .error "TLS upgrade failed".data) ∧
    ((MaybeTls.UpgradeBroken : MaybeTls σ τ).upgradeTls acceptor
        = ([], .error .PreviousFailure)) ∧
    (∀ accept : σ → Except (List Char) τ,
      ((MaybeTls.Plain s : MaybeTls σ τ).upgradeTls (some accept)).1.head?
          = some .UpgradeBroken ∧
      (∀ t, accept s = .ok t →
        (MaybeTls.Plain s : MaybeTls σ τ).upgradeFinal (some accept) = .Tls t) ∧
      (∀ e, accept s = .error e →
        (MaybeTls.Plain s : MaybeTls σ τ).upgradeFinal (some accept)
          = .UpgradeBroken)) := by
  refine ⟨rfl, rfl, rfl, rfl, rfl, fun accept => ⟨?_, ?_, ?_⟩⟩
  · cases ha : accept s <;> simp [MaybeTls.upgradeTls, ha]
  · intro t ht
    simp [MaybeTls.upgradeFinal, MaybeTls.upgradeTls, ht]
  · intro e he
    simp [MaybeTls.upgradeFinal, MaybeTls.upgradeTls, he]

/-- Witness for C6 at the unit stream with a succeeding and a failing
handshake. -/
theorem upgrade_broken_terminal_witness :
    ((MaybeTls.UpgradeBroken : MaybeTls Unit Unit).pollRead
        (fun _ => true) (fun _ => true) = .error "TLS upgrade failed".data) ∧
    ((MaybeTls.Plain () : MaybeTls Unit Unit).upgradeFinal
        (some fun _ => Except.ok ()) = .Tls ()) ∧
    ((MaybeTls.Plain () : MaybeTls Unit Unit).upgradeFinal
        (some fun _ => Except.error []) = .UpgradeBroken) :=
  ⟨(upgrade_broken_terminal (fun _ => true) (fun _ => true) none ()).1,
   ((upgrade_broken_terminal (fun _ => true) (fun _ => true) none ()).2.2.2.2.2
      (fun _ => Except.ok ())).2.1 () rfl,
   ((upgrade_broken_terminal (fun _ => true) (fun _ => true) none ()).2.2.2.2.2
      (fun _ => Except.error [])).2.2 [] rfl⟩

/-- C7: the RNTO arm — with no pending rename source the driver replies 503
and continues with the state unchanged; with a pending source it calls
`handler.rename(from, to)` on the stored source and the RNTO argument,
answers 200 on success and, on failure, the `into_ftp_response` of the error, and
clears the pending source in either case. -/
theorem rnto_behavior (st : CState) (o : StepOracle) (p : List Char) :
    (st.toRename = none →
      phaseCStep st o (.command (.Rnto p)) =
        .next st [.Simple .BadSequence none] false) ∧
    (∀ fp, st.toRename = some fp →
      phaseCStep st o (.command (.Rnto p)) =
        .next ⟨st.ioFactory, none⟩
          [match o.renameRes fp p with
           | .ok _ => FtpResponse.Simple .Ok none
           | .error e => e.into_ftp_response] false) := by
  obtain ⟨iof, tr⟩ := st
  constructor
  · intro h
    simp only at h
    subst h
    rfl
  · intro fp h
    simp only at h
    subst h
    show (match o.renameRes fp p with
      | .ok _ => StepResult.next ⟨iof, none⟩ [.Simple .Ok none] false
      | .error e => .next ⟨iof, none⟩ [e.into_ftp_response] false) = _
    cases hr : o.renameRes fp p <;> simp [hr]

/-- Witness for C7: a pending source `a`, RNTO `b`, rename succeeding. -/
theorem rnto_behavior_witness :
    phaseCStep ⟨false, some "a".data⟩ o0 (.command (.Rnto "b".data)) =
      .next ⟨false, none⟩
        [match o0.renameRes "a".data "b".data with
         | .ok _ => FtpResponse.Simple .Ok none
         | .error e => e.into_ftp_response] false :=
  (rnto_behavior ⟨false, some "a".data⟩ o0 "b".data).2 "a".data rfl

/-- Counterexample to C3: with a pending rename source `a` set by an
earlier RNFR, executing `PWD` (a command other than RNFR) leaves the
pending source set — it is not cleared or invalidated by the very next
command of any kind. -/
theorem pending_rename_survives_cx :
    (phaseCStep ⟨false, some "a".data⟩ o0 (.command .Pwd)).outState.toRename
        = some "a".data ∧
    ¬ (phaseCStep ⟨false, some "a".data⟩ o0
        (.command .Pwd)).outState.toRename = none := by
  constructor <;> decide

/-- C3 (amended): `to_rename` is set only by RNFR and cleared only by RNTO
(which consumes it whether the rename succeeds or fails); every other
command — and a parse error, disconnect or read error — leaves it
unchanged. -/
theorem pending_rename_lifetime (st : CState) (o : StepOracle) :
    (∀ ev : ReadEvent, ev.touchesRename = false →
      (phaseCStep st o ev).outState.toRename = st.toRename) ∧
    (∀ p, (phaseCStep st o (.command (.Rnfr p))).outState.toRename = some p) ∧
    (∀ p, (phaseCStep st o (.command (.Rnto p))).outState.toRename = none) := by
  refine ⟨?_, fun p => rfl, ?_⟩
  · intro ev hev
    cases ev with
    | disconnect => rfl
    | ioError => rfl
    | parseError e => rfl
    | command c =>
      cases c with
      | Pwd =>
        cases h : o.cwdRes <;>
          simp [phaseCStep, h, StepResult.outState]
      | Cwd path =>
        by_cases h : o.setCwdRes path <;>
          simp [phaseCStep, h, StepResult.outState]
      | TypeCmd t => rfl
      | Pasv =>
        cases h : o.pasvRes with
        | error e => simp [phaseCStep, h, StepResult.outState]
        | ok conn =>
          cases hr : conn.toReply <;>
            simp [phaseCStep, h, hr, StepResult.outState]
      | List =>
        by_cases h : st.ioFactory && o.createIoOk
        · cases hl : o.lsRes <;>
            simp [phaseCStep, passiveConnDrv, h, hl, StepResult.outState]
        · simp [phaseCStep, passiveConnDrv, h, StepResult.outState]
      | Syst => rfl
      | Retr file =>
        by_cases h : st.ioFactory && o.createIoOk
        · cases hl : o.readRes file <;>
            simp [phaseCStep, passiveConnDrv, h, hl, StepResult.outState]
        · simp [phaseCStep, passiveConnDrv, h, StepResult.outState]
      | Stor file =>
        by_cases h : st.ioFactory && o.createIoOk
        · cases hl : o.writeRes file <;>
            simp [phaseCStep, passiveConnDrv, h, hl, StepResult.outState]
        · simp [phaseCStep, passiveConnDrv, h, StepResult.outState]
      | Feat => rfl
      | Opts x => rfl
      | Utf8 => rfl
      | Auth a => rfl
      | User u => rfl
      | Pass pw => rfl
      | Pbsz => rfl
      | Rnfr path => simp [ReadEvent.touchesRename] at hev
      | Rnto toPath => simp [ReadEvent.touchesRename] at hev
  · intro p
    cases h : st.toRename with
    | none => simp [phaseCStep, h, StepResult.outState]
    | some fp =>
      cases hr : o.renameRes fp p <;>
        simp [phaseCStep, h, hr, StepResult.outState]

/-- Witness for C3 (amended): a `SYST` between RNFR and RNTO leaves the
pending source unchanged. -/
theorem pending_rename_lifetime_witness :
    (phaseCStep ⟨true, some "x".data⟩ o0 (.command .Syst)).outState.toRename
      = (⟨true, some "x".data⟩ : CState).toRename :=
  (pending_rename_lifetime ⟨true, some "x".data⟩ o0).1 (.command .Syst) rfl

/-- Counterexample to C1: with a factory installed, a LIST accepts a data
stream, yet afterwards the factory is still installed (not dropped), and a
second LIST — with no intervening PASV — again accepts a data stream and
emits no 502 at all. -/
theorem passive_factory_not_single_shot_cx :
    (phaseCStep ⟨true, none⟩ o0 (.command .List)).accepted = true ∧
    (phaseCStep ⟨true, none⟩ o0 (.command .List)).outState.ioFactory = true ∧
    (phaseCStep (phaseCStep ⟨true, none⟩ o0
        (.command .List)).outState o0 (.command .List)).accepted = true ∧
    FtpResponse.Simple .CommandNotImplemented none ∉
      (phaseCStep (phaseCStep ⟨true, none⟩ o0
        (.command .List)).outState o0 (.command .List)).outResponses := by
  refine ⟨by decide, by decide, by decide, by decide⟩

/-- C1 (amended): the passive factory is not single-shot — the driver
borrows it with `as_mut` rather than taking it, so a data-transfer command
leaves it installed and a later one reuses it; only a data-transfer command
issued when no factory is installed (none has been installed by a
successful PASV yet) fails, writing a 150 and then a 502 and accepting no
stream. -/
theorem passive_factory_persists (st : CState) (o : StepOracle) (c : Command)
    (hdata : c.isDataCmd = true) :
    (st.ioFactory = false →
      phaseCStep st o (.command c) =
        .next st [.Simple .OpeningDataConnection none,
                  .Simple .CommandNotImplemented none] false) ∧
    (st.ioFactory = true →
      (phaseCStep st o (.command c)).outState.ioFactory = true ∧
      (phaseCStep st o (.command c)).accepted = o.createIoOk) := by
  constructor
  · intro hf
    cases c with
    | List => simp [phaseCStep, passiveConnDrv, hf]
    | Retr file => simp [phaseCStep, passiveConnDrv, hf]
    | Stor file => simp [phaseCStep, passiveConnDrv, hf]
    | _ => simp [Command.isDataCmd] at hdata
  · intro hf
    cases c with
    | List =>
      by_cases hio : o.createIoOk
      · cases hl : o.lsRes <;>
          simp [phaseCStep, passiveConnDrv, hf, hio, hl,
            StepResult.outState, StepResult.accepted]
      · simp [phaseCStep, passiveConnDrv, hf, hio,
          StepResult.outState, StepResult.accepted]
    | Retr file =>
      by_cases hio : o.createIoOk
      · cases hl : o.readRes file <;>
          simp [phaseCStep, passiveConnDrv, hf, hio, hl,
            StepResult.outState, StepResult.accepted]
      · simp [phaseCStep, passiveConnDrv, hf, hio,
          StepResult.outState, StepResult.accepted]
    | Stor file =>
      by_cases hio : o.createIoOk
      · cases hl : o.writeRes file <;>
          simp [phaseCStep, passiveConnDrv, hf, hio, hl,
            StepResult.outState, StepResult.accepted]
      · simp [phaseCStep, passiveConnDrv, hf, hio,
          StepResult.outState, StepResult.accepted]
    | _ => simp [Command.isDataCmd] at hdata

/-- Witness for C1 (amended): a LIST with no factory installed, and a LIST
with a factory installed. -/
theorem passive_factory_persists_witness :
    (phaseCStep ⟨false, none⟩ o0 (.command .List) =
      .next ⟨false, none⟩
        [.Simple .OpeningDataConnection none,
         .Simple .CommandNotImplemented none] false) ∧
    (phaseCStep ⟨true, none⟩ o0 (.command .List)).outState.ioFactory = true :=
  ⟨(passive_factory_persists ⟨false, none⟩ o0 .List rfl).1 rfl,
   ((passive_factory_persists ⟨true, none⟩ o0 .List rfl).2 rfl).1⟩

/-- Counterexample to C2: a LIST issued with no passive factory installed
writes a 150 and then the 502 (not "only a single 502 response and no
150"), and a LIST whose two data-channel writes both fail writes a 225 per
failed entry and then a 226 — more than one terminal response. -/
theorem list_response_multiplicity_cx :
    (phaseCStep ⟨false, none⟩ o0 (.command .List)).outResponses =
      [.Simple .OpeningDataConnection none,
       .Simple .CommandNotImplemented none] ∧
    (phaseCStep ⟨true, none⟩ oFail (.command .List)).outResponses =
      [.Simple .OpeningDataConnection none,
       .Simple .ClosingDataConnectionNoTransfer none,
       .Simple .ClosingDataConnectionNoTransfer none,
       .Simple .ClosingDataConnectionSuccessful none] := by
  constructor <;> decide

/-- Helper: the LIST data loop writes exactly one 225 per failed entry,
and every response it writes is the 225. -/
theorem listLoop_spec (ok : Nat → Bool) :
    ∀ (n : Nat) (files : List (List Char)),
    (listLoop ok n files).length =
      (List.range' n files.length).countP (fun i => ok i = false) ∧
    ∀ r ∈ listLoop ok n files,
      r = FtpResponse.Simple .ClosingDataConnectionNoTransfer none := by
  intro n files
  induction files generalizing n with
  | nil => simp [listLoop]
  | cons f rest ih =>
    obtain ⟨ihl, ihm⟩ := ih (n + 1)
    constructor
    · by_cases h : ok n <;>
        simp [listLoop, h, List.range'_succ, List.countP_cons, ihl]
    · intro r hr
      by_cases h : ok n <;> simp [listLoop, h] at hr
      · exact ihm r hr
      · rcases hr with hr | hr
        · exact hr
        · exact ihm r hr

/-- C2 (amended): in the authenticated loop every non-data command and
every parse error is answered with exactly one response; a data-transfer
command (LIST, RETR, STOR) first writes a 150, unconditionally — when no
factory is installed or no stream can be accepted the 150 is followed by a
single 502; RETR and STOR with an accepted stream get exactly one terminal
response (226 or 550) after the 150; a LIST with an accepted stream and a
successful listing gets, after the 150, one 225 per failed data-channel
write followed by a terminal 226 (and a single 225 after the 150 when the
listing itself fails). -/
theorem response_multiplicity (st : CState) (o : StepOracle) :
    (∀ c : Command, c.isDataCmd = false →
      (phaseCStep st o (.command c)).outResponses.length = 1) ∧
    (∀ e, (phaseCStep st o (.parseError e)).outResponses =
      [.Simple .CommandNotImplemented (some e)]) ∧
    (∀ c : Command, c.isDataCmd = true →
      (phaseCStep st o (.command c)).outResponses.head? =
        some (.Simple .OpeningDataConnection none)) ∧
    (∀ c : Command, c.isDataCmd = true → (st.ioFactory && o.createIoOk) = false →
      (phaseCStep st o (.command c)).outResponses =
        [.Simple .OpeningDataConnection none,
         .Simple .CommandNotImplemented none]) ∧
    (∀ file, st.ioFactory = true → o.createIoOk = true →
      (phaseCStep st o (.command (.Retr file))).outResponses =
        [.Simple .OpeningDataConnection none,
         match o.readRes file with
         | .ok _ => .Simple .ClosingDataConnectionSuccessful none
         | .error _ => .Simple .FileUnavailable none]) ∧
    (∀ file, st.ioFactory = true → o.createIoOk = true →
      (phaseCStep st o (.command (.Stor file))).outResponses =
        [.Simple .OpeningDataConnection none,
         match o.writeRes file with
         | .ok _ => .Simple .ClosingDataConnectionSuccessful none
         | .error _ => .Simple .FileUnavailable none]) ∧
    (∀ files, st.ioFactory = true → o.createIoOk = true → o.lsRes = .ok files →
      (phaseCStep st o (.command .List)).outResponses =
        .Simple .OpeningDataConnection none ::
          (listLoop o.dataWriteOk 0 files ++
            [.Simple .ClosingDataConnectionSuccessful none])) ∧
    (∀ e, st.ioFactory = true → o.createIoOk = true → o.lsRes = .error e →
      (phaseCStep st o (.command .List)).outResponses =
        [.Simple .OpeningDataConnection none,
         .Simple .ClosingDataConnectionNoTransfer none]) ∧
    (∀ n files, (listLoop o.dataWriteOk n files).length =
      (List.range' n files.length).countP (fun i => o.dataWriteOk i = false)) ∧
    (∀ n files r, r ∈ listLoop o.dataWriteOk n files →
      r = FtpResponse.Simple .ClosingDataConnectionNoTransfer none) := by
  refine ⟨?_, fun e => rfl, ?_, ?_, ?_, ?_, ?_, ?_,
    fun n files => (listLoop_spec o.dataWriteOk n files).1,
    fun n files r hr => (listLoop_spec o.dataWriteOk n files).2 r hr⟩
  · intro c hc
    cases c with
    | Pwd => cases h : o.cwdRes <;> simp [phaseCStep, h, StepResult.outResponses]
    | Cwd path =>
      by_cases h : o.setCwdRes path <;> simp [phaseCStep, h, StepResult.outResponses]
    | Pasv =>
      cases h : o.pasvRes with
      | error e => simp [phaseCStep, h, StepResult.outResponses]
      | ok conn =>
        cases hr : conn.toReply <;> simp [phaseCStep, h, hr, StepResult.outResponses]
    | Rnto toPath =>
      cases h : st.toRename with
      | none => simp [phaseCStep, h, StepResult.outResponses]
      | some fp =>
        cases hr : o.renameRes fp toPath <;>
          simp [phaseCStep, h, hr, StepResult.outResponses]
    | List => simp [Command.isDataCmd] at hc
    | Retr file => simp [Command.isDataCmd] at hc
    | Stor file => simp [Command.isDataCmd] at hc
    | _ => rfl
  · intro c hc
    cases c with
    | List =>
      by_cases h : st.ioFactory && o.createIoOk
      · cases hl : o.lsRes <;>
          simp [phaseCStep, passiveConnDrv, h, hl, StepResult.outResponses]
      · simp [phaseCStep, passiveConnDrv, h, StepResult.outResponses]
    | Retr file =>
      by_cases h : st.ioFactory && o.createIoOk
      · cases hl : o.readRes file <;>
          simp [phaseCStep, passiveConnDrv, h, hl, StepResult.outResponses]
      · simp [phaseCStep, passiveConnDrv, h, StepResult.outResponses]
    | Stor file =>
      by_cases h : st.ioFactory && o.createIoOk
      · cases hl : o.writeRes file <;>
          simp [phaseCStep, passiveConnDrv, h, hl, StepResult.outResponses]
      · simp [phaseCStep, passiveConnDrv, h, StepResult.outResponses]
    | _ => simp [Command.isDataCmd] at hc
  · intro c hc hio
    cases c with
    | List => simp [phaseCStep, passiveConnDrv, hio, StepResult.outResponses]
    | Retr file => simp [phaseCStep, passiveConnDrv, hio, StepResult.outResponses]
    | Stor file => simp [phaseCStep, passiveConnDrv, hio, StepResult.outResponses]
    | _ => simp [Command.isDataCmd] at hc
  · intro file hf hio
    cases hl : o.readRes file <;>
      simp [phaseCStep, passiveConnDrv, hf, hio, hl, StepResult.outResponses]
  · intro file hf hio
    cases hl : o.writeRes file <;>
      simp [phaseCStep, passiveConnDrv, hf, hio, hl, StepResult.outResponses]
  · intro files hf hio hl
    simp [phaseCStep, passiveConnDrv, hf, hio, hl, StepResult.outResponses]
  · intro e hf hio hl
    simp [phaseCStep, passiveConnDrv, hf, hio, hl, StepResult.outResponses]

/-- Witness for C2 (amended): SYST gets one response; a no-factory LIST
gets the 150 then the 502; a RETR with a stream gets the 150 then the 226. -/
theorem response_multiplicity_witness :
    (phaseCStep ⟨true, none⟩ o0 (.command .Syst)).outResponses.length = 1 ∧
    (phaseCStep ⟨false, none⟩ o0 (.command .List)).outResponses =
      [.Simple .OpeningDataConnection none,
       .Simple .CommandNotImplemented none] ∧
    (phaseCStep ⟨true, none⟩ o0 (.command (.Retr "f".data))).outResponses =
      [.Simple .OpeningDataConnection none,
       match o0.readRes "f".data with
       | .ok _ => .Simple .ClosingDataConnectionSuccessful none
       | .error _ => .Simple .FileUnavailable none] :=
  ⟨(response_multiplicity ⟨true, none⟩ o0).1 .Syst rfl,
   (response_multiplicity ⟨false, none⟩ o0).2.2.2.1 .List rfl rfl,
   (response_multiplicity ⟨true, none⟩ o0).2.2.2.2.1 "f".data rfl rfl⟩

/-- Counterexample to C4: pre-authentication, the line `NOOP` is not a
recognised command — `Command::from_str` fails — and the parse error
propagates out of `Ftp::handle` through the `?` on `self.read()`: the
session terminates with an error and no 503 (indeed no response at all) is
written. -/
theorem preauth_unknown_verb_cx :
    commandFromStr "NOOP".data = .error "unknown command: NOOP".data ∧
    (ftpRead "NOOP\r\n".data).1 = .parseErr "unknown command: NOOP".data ∧
    phaseAStep ⟨true, true⟩ .Plain true
      (.parseError "unknown command: NOOP".data) = .terminatedErr [] := by
  refine ⟨by rfl, by decide, rfl⟩

/-- C4 (amended): pre-authentication, every successfully parsed command
other than AUTH, USER and OPTS is answered 503 and the session ends
(`return Ok(())`); a line with an unrecognised verb is a parse failure,
which pre-authentication propagates out of the read as a fatal error —
the session terminates with no response written — while after
authentication the same parse failure is answered `502 <parse error
message>` (for `NOOP`: `unknown command: NOOP`) and the loop continues. -/
theorem unknown_verb_dispatch (cfg : Config) (t : Transport) (h : Bool)
    (st : CState) (o : StepOracle) :
    (∀ c : Command, c.isAuthUserOpts = false →
      phaseAStep cfg t h (.command c) =
        .terminatedOk [.Simple .BadSequence none]) ∧
    (∀ e, phaseAStep cfg t h (.parseError e) = .terminatedErr []) ∧
    (∀ e, phaseCStep st o (.parseError e) =
      .next st [.Simple .CommandNotImplemented (some e)] false) ∧
    commandFromStr "NOOP".data = .error "unknown command: NOOP".data := by
  refine ⟨?_, fun e => rfl, fun e => rfl, by rfl⟩
  intro c hc
  cases c with
  | Auth a => simp [Command.isAuthUserOpts] at hc
  | User u => simp [Command.isAuthUserOpts] at hc
  | Opts x => simp [Command.isAuthUserOpts] at hc
  | _ => rfl

/-- Witness for C4 (amended): a parsed `PWD` pre-authentication, and the
parse error for `NOOP` after authentication. -/
theorem unknown_verb_dispatch_witness :
    phaseAStep ⟨true, true⟩ .Plain true (.command .Pwd) =
      .terminatedOk [.Simple .BadSequence none] ∧
    phaseCStep ⟨false, none⟩ o0 (.parseError "unknown command: NOOP".data) =
      .next ⟨false, none⟩
        [.Simple .CommandNotImplemented
          (some "unknown command: NOOP".data)] false :=
  ⟨(unknown_verb_dispatch ⟨true, true⟩ .Plain true ⟨false, none⟩ o0).1 .Pwd rfl,
   (unknown_verb_dispatch ⟨true, true⟩ .Plain true ⟨false, none⟩ o0).2.2.1
     "unknown command: NOOP".data⟩

/-- Helper: appending one character cannot complete a CRLF unless the
character is LF and the buffer already ends in CR. -/
theorem endsWithCRLF_snoc_false (buf : List Char) (b : Char)
    (h : b = '\n' → buf.reverse.head? ≠ some '\r') :
    endsWithCRLF (buf ++ [b]) = false := by
  have hrev : (buf ++ [b]).reverse = b :: buf.reverse := by simp
  unfold endsWithCRLF
  rw [hrev]
  split
  · rename_i heq
    injection heq with hb htail
    exact absurd (by rw [htail]; rfl) (h hb)
  · rfl

/-- Helper: decomposing `hasCRLF` at a cons cell. -/
theorem hasCRLF_cons (b : Char) (rest : List Char)
    (h : hasCRLF (b :: rest) = false) :
    hasCRLF rest = false ∧ (b = '\r' → rest.head? ≠ some '\n') := by
  cases rest with
  | nil => exact ⟨rfl, fun _ => by simp⟩
  | cons x xs =>
    rw [show hasCRLF (b :: x :: xs) =
        ((b = '\r' && x = '\n') || hasCRLF (x :: xs)) from rfl] at h
    rw [Bool.or_eq_false_iff, Bool.and_eq_false_iff] at h
    refine ⟨h.2, fun hb hx => ?_⟩
    simp only [List.head?] at hx
    injection hx with hx
    rcases h.1 with h1 | h1
    · rw [hb] at h1; simp at h1
    · rw [hx] at h1; simp at h1

/-- Helper: when the remaining input contains no CRLF (and none straddles
the buffer boundary), the read loop of `Ftp::read` consumes the whole
stream and keeps every buffered byte. -/
theorem readLineAux_eof (input : List Char) : ∀ buf : List Char,
    hasCRLF input = false →
    (buf.reverse.head? = some '\r' → input.head? ≠ some '\n') →
    readLineAux buf input = (buf ++ input, []) := by
  induction input with
  | nil => intro buf _ _; simp [readLineAux]
  | cons b rest ih =>
    intro buf hcr hcross
    obtain ⟨hrest, hb⟩ := hasCRLF_cons b rest hcr
    have hend : endsWithCRLF (buf ++ [b]) = false := by
      apply endsWithCRLF_snoc_false
      intro hbn hr
      exact hcross hr (by rw [hbn]; rfl)
    rw [show readLineAux buf (b :: rest) =
        (if endsWithCRLF (buf ++ [b]) then
          ((buf ++ [b]).dropLast.dropLast, rest)
        else readLineAux (buf ++ [b]) rest) from rfl]
    rw [hend]
    simp only [Bool.false_eq_true, if_false]
    rw [ih (buf ++ [b]) hrest ?_]
    · simp
    · intro hr
      simp only [List.reverse_append, List.reverse_cons, List.reverse_nil,
        List.nil_append, List.singleton_append, List.head?_cons,
        Option.some.injEq] at hr
      exact hb hr

/-- C10: when the control stream reaches end of file before any CRLF, the
line reader keeps the buffered bytes: if the buffered partial line is not
all whitespace it is handed to `Command::from_str` and dispatched exactly
as a complete line would be, and if it is empty or all whitespace the read
reports a clean disconnect. -/
theorem read_partial_line_at_eof (input : List Char)
    (h : hasCRLF input = false) :
    (trimChars input = [] → ftpRead input = (.ok .disconnect, [])) ∧
    (trimChars input ≠ [] →
      ftpRead input =
        (match commandFromStr input with
         | .ok c => (ReadResult.ok (.command c), ([] : List Char))
         | .error e => (.parseErr e, []))) := by
  have hline : readLineAux [] input = (input, []) :=
    readLineAux_eof input [] h (by intro hx; simp at hx)
  constructor
  · intro ht
    unfold ftpRead
    rw [hline]
    simp [ht]
  · intro ht
    unfold ftpRead
    rw [hline]
    simp only [List.isEmpty_iff, ht, if_false]

/-- Witness for C10: the stream `USER bob` with no CRLF is parsed and
dispatched as a USER command; the stream of two spaces is a disconnect. -/
theorem read_partial_line_at_eof_witness :
    hasCRLF "USER bob".data = false ∧
    ftpRead "USER bob".data = (.ok (.command (.User "bob".data)), []) ∧
    hasCRLF "  ".data = false ∧
    ftpRead "  ".data = (.ok .disconnect, []) := by
  refine ⟨by decide, ?_, by decide, ?_⟩
  · rw [(read_partial_line_at_eof "USER bob".data (by decide)).2 (by decide)]
    rfl
  · exact (read_partial_line_at_eof "  ".data (by decide)).1 (by decide)

/-- Helper: with `allow_plaintext = false`, the pre-authentication loop can
only break out with a username (`gotUser`) when the transport is `Tls` —
the USER guard arm intercepts every other transport. -/
theorem phaseA_gotUser_tls (cfg : Config) (hp : cfg.allowPlaintext = false)
    (t t2 : Transport) (h : Bool) (ev : ReadEvent) (u : List Char)
    (rs : List FtpResponse)
    (heq : phaseAStep cfg t h ev = .gotUser t2 u rs) : t2 = .Tls := by
  cases ev with
  | disconnect => exact absurd heq (by simp [phaseAStep])
  | parseError e => exact absurd heq (by simp [phaseAStep])
  | ioError => exact absurd heq (by simp [phaseAStep])
  | command c =>
    cases c with
    | User u2 =>
      by_cases hts : t = Transport.Tls
      · subst hts
        rw [show phaseAStep cfg .Tls h (.command (.User u2)) =
            if Transport.Tls ≠ .Tls ∧ cfg.allowPlaintext = false then
              .looped .Tls
                [.Simple .NotLoggedIn
                  (some "Please use AUTH TLS before sending USER command.".data)]
            else .gotUser .Tls u2 [] from rfl] at heq
        rw [if_neg (by simp)] at heq
        injection heq with h1 h2 h3
        exact h1.symm
      · rw [show phaseAStep cfg t h (.command (.User u2)) =
            if t ≠ .Tls ∧ cfg.allowPlaintext = false then
              .looped t
                [.Simple .NotLoggedIn
                  (some "Please use AUTH TLS before sending USER command.".data)]
            else .gotUser t u2 [] from rfl] at heq
        rw [if_pos ⟨hts, hp⟩] at heq
        exact absurd heq (by simp)
    | Auth a =>
      simp only [phaseAStep] at heq
      split at heq
      · split at heq
        · split at heq
          · exact absurd heq (by simp)
          · exact absurd heq (by simp)
        · exact absurd heq (by simp)
        · exact absurd heq (by simp)
      · exact absurd heq (by simp)
    | Opts x => exact absurd heq (by simp [phaseAStep])
    | Pwd => exact absurd heq (by simp [phaseAStep])
    | Pass pw => exact absurd heq (by simp [phaseAStep])
    | Cwd path => exact absurd heq (by simp [phaseAStep])
    | TypeCmd tt => exact absurd heq (by simp [phaseAStep])
    | Pasv => exact absurd heq (by simp [phaseAStep])
    | List => exact absurd heq (by simp [phaseAStep])
    | Retr file => exact absurd heq (by simp [phaseAStep])
    | Syst => exact absurd heq (by simp [phaseAStep])
    | Stor file => exact absurd heq (by simp [phaseAStep])
    | Feat => exact absurd heq (by simp [phaseAStep])
    | Utf8 => exact absurd heq (by simp [phaseAStep])
    | Pbsz => exact absurd heq (by simp [phaseAStep])
    | Rnfr path => exact absurd heq (by simp [phaseAStep])
    | Rnto toPath => exact absurd heq (by simp [phaseAStep])

/-- Helper: with `allow_plaintext = false`, every session state reachable
from a pre-authentication start has a `Tls` transport whenever its phase is
`awaitingPass` or `authenticated`. -/
theorem session_inv (cfg : Config) (hp : cfg.allowPlaintext = false)
    (s0 s : SessionSt) (h0 : s0.phase = .preAuth)
    (hr : SessionReachable cfg s0 s) :
    (∀ u, s.phase = .awaitingPass u → s.transport = .Tls) ∧
    (∀ cs, s.phase = .authenticated cs → s.transport = .Tls) := by
  induction hr with
  | refl =>
    constructor
    · intro u hu; rw [h0] at hu; exact absurd hu (by simp)
    · intro cs hc; rw [h0] at hc; exact absurd hc (by simp)
  | tail hab hstep ih =>
    cases hstep with
    | preLoop t h ev t2 rs heq =>
      exact ⟨fun u hu => absurd hu (by simp),
        fun cs hc => absurd hc (by simp)⟩
    | preUser t h ev t2 u rs heq =>
      have := phaseA_gotUser_tls cfg hp t t2 h ev u rs heq
      exact ⟨fun u2 _ => this, fun cs hc => absurd hc (by simp)⟩
    | preTermOk t h ev rs heq =>
      exact ⟨fun u hu => absurd hu (by simp),
        fun cs hc => absurd hc (by simp)⟩
    | preTermErr t h ev rs heq =>
      exact ⟨fun u hu => absurd hu (by simp),
        fun cs hc => absurd hc (by simp)⟩
    | passAccept t u p =>
      have ht : t = Transport.Tls := ih.1 u rfl
      exact ⟨fun u2 hu => absurd hu (by simp), fun cs _ => ht⟩
    | passEnd t u =>
      exact ⟨fun u hu => absurd hu (by simp),
        fun cs hc => absurd hc (by simp)⟩
    | cNext t c c2 o ev rs d heq =>
      have ht : t = Transport.Tls := ih.2 c rfl
      exact ⟨fun u2 hu => absurd hu (by simp), fun cs _ => ht⟩
    | cHalt t c c2 o ev rs heq =>
      exact ⟨fun u hu => absurd hu (by simp),
        fun cs hc => absurd hc (by simp)⟩

/-- C5: with TLS configured, `allow_plaintext = false` and the transport
still `Plain`, every USER command is answered
`530 Please use AUTH TLS before sending USER command.` and the session
stays in the pre-authentication loop with the transport unchanged; as a
consequence, no session reachable from a pre-authentication start is ever
in the `authenticated` phase while its transport is plaintext. -/
theorem plaintext_user_rejected (cfg : Config)
    (_hc : cfg.tlsConfigured = true) (hp : cfg.allowPlaintext = false) :
    (∀ (u : List Char) (h : Bool),
      phaseAStep cfg .Plain h (.command (.User u)) =
        .looped .Plain
          [.Simple .NotLoggedIn
            (some "Please use AUTH TLS before sending USER command.".data)]) ∧
    (∀ (t0 : Transport) (s : SessionSt),
      SessionReachable cfg ⟨t0, .preAuth⟩ s →
      s.transport = .Plain → ∀ cs, s.phase ≠ .authenticated cs) := by
  constructor
  · intro u h
    rw [show phaseAStep cfg .Plain h (.command (.User u)) =
        if Transport.Plain ≠ .Tls ∧ cfg.allowPlaintext = false then
          .looped .Plain
            [.Simple .NotLoggedIn
              (some "Please use AUTH TLS before sending USER command.".data)]
        else .gotUser .Plain u [] from rfl]
    rw [if_pos ⟨by simp, hp⟩]
  · intro t0 s hr hplain cs hphase
    have := (session_inv cfg hp ⟨t0, .preAuth⟩ s rfl hr).2 cs hphase
    rw [hplain] at this
    exact absurd this (by simp)

/-- Witness for C5: the concrete `⟨tls configured, plaintext forbidden⟩`
configuration, a USER at the start state, and the start state itself. -/
theorem plaintext_user_rejected_witness :
    phaseAStep ⟨true, false⟩ .Plain true (.command (.User "alice".data)) =
      .looped .Plain
        [.Simple .NotLoggedIn
          (some "Please use AUTH TLS before sending USER command.".data)] ∧
    (⟨.Plain, .preAuth⟩ : SessionSt).phase ≠ .authenticated ⟨false, none⟩ :=
  ⟨(plaintext_user_rejected ⟨true, false⟩ rfl rfl).1 "alice".data true,
   (plaintext_user_rejected ⟨true, false⟩ rfl rfl).2 .Plain ⟨.Plain, .preAuth⟩
     Relation.ReflTransGen.refl rfl ⟨false, none⟩⟩

end Cftp
